import Mathlib

/-!
# Verification of the AutoHeal runtime-resilience agent against its spec

The repository snapshot under verification contains the dashboard front end
(two monitor-page script variants, two dashboard script variants, shared
utilities).  The agent core (Event Ingest, Window Aggregator, Health
Classifier, Pattern Advisor, Pattern Registry, Agent Loop, Event Log) is
described by the spec but its source is not part of the snapshot; those
components are modelled from the spec, as marked on each definition.
Front-end computations (request-URL construction, per-call status rendering,
health-bar percentage, event-feed ordering) are embedded directly from the
JavaScript sources.

Numbers that are floats in the implementation (timestamps, durations,
rates) are modelled as rationals; HTTP status codes as naturals.
-/

namespace AutoHeal

/-- One observed call outcome (spec §3 CallRecord): `service`, `timestamp`
(seconds since epoch), `duration` (seconds), `status` (integer HTTP status,
0 meaning connection failure), `error` (optional message). -/
structure CallRecord where
  service : String
  timestamp : ℚ
  duration : ℚ
  status : Nat
  error : Option String
  deriving Repr, DecidableEq

/-- Modelled from the spec: the Window Aggregator's failure test (§4.2),
whose source is not in the snapshot.  "A call counts as a failure iff
`status == 0` (connection failure) or `status >= 400`." -/
def isFailure (status : Nat) : Bool :=
  status == 0 || decide (status ≥ 400)

/-- Health states (spec §2, Health Classifier). -/
inductive HealthState where
  | healthy
  | degraded
  | critical
  | slow
  deriving Repr, DecidableEq

/-- Classifier thresholds; injected configuration, not literals (spec §4.3). -/
structure Thresholds where
  critical_threshold : ℚ
  degraded_threshold : ℚ
  slow_latency_threshold : ℚ
  deriving Repr, DecidableEq

/-- Illustrative default thresholds named by the spec (50%, 20%, 2.0s). -/
def defaultThresholds : Thresholds :=
  { critical_threshold := 50, degraded_threshold := 20, slow_latency_threshold := 2 }

/-- Modelled from the spec: the Health Classifier (§4.3), whose source is
not in the snapshot.  `critical` if `failure_rate >= critical_threshold`;
`degraded` if `failure_rate >= degraded_threshold` and `< critical_threshold`;
`slow` if `failure_rate < degraded_threshold` and
`avg_latency >= slow_latency_threshold`; `healthy` otherwise; ties resolve
toward the more severe state, failure rate dominating latency. -/
def classify (t : Thresholds) (failure_rate avg_latency : ℚ) : HealthState :=
  if failure_rate ≥ t.critical_threshold then .critical
  else if failure_rate ≥ t.degraded_threshold then .degraded
  else if avg_latency ≥ t.slow_latency_threshold then .slow
  else .healthy

/-- Derived per-service statistics (spec §3 ServiceSummary). -/
structure ServiceSummary where
  service : String
  window_seconds : ℚ
  total_calls : Nat
  failure_rate : ℚ
  avg_latency : ℚ
  status : HealthState
  deriving Repr, DecidableEq

/-- A record is inside the trailing window iff `timestamp >= now - window_seconds`
(spec §4.2). -/
def inWindow (now window_seconds : ℚ) (r : CallRecord) : Bool :=
  decide (r.timestamp ≥ now - window_seconds)

/-- Modelled from the spec: the Window Aggregator's `summarize` (§4.2), whose
source is not in the snapshot.  Filters the service's history to records in
the trailing window; on the empty window returns `total_calls = 0`,
`failure_rate = 0`, `avg_latency = 0`, status healthy; otherwise
`failure_rate = failed/total × 100` and `avg_latency` the mean duration over
counted calls, with status from the classifier. -/
def summarize (t : Thresholds) (history : List CallRecord) (service : String)
    (now window_seconds : ℚ) : ServiceSummary :=
  let recs := history.filter fun r => r.service == service && inWindow now window_seconds r
  let n := recs.length
  if n = 0 then
    { service := service, window_seconds := window_seconds, total_calls := 0,
      failure_rate := 0, avg_latency := 0, status := .healthy }
  else
    let failed := (recs.filter fun r => isFailure r.status).length
    let fr : ℚ := (failed : ℚ) / (n : ℚ) * 100
    let lat : ℚ := (recs.map CallRecord.duration).sum / (n : ℚ)
    { service := service, window_seconds := window_seconds, total_calls := n,
      failure_rate := fr, avg_latency := lat, status := classify t fr lat }

/-- The three resilience patterns (spec glossary). -/
inductive Pattern where
  | circuit_breaker
  | retry
  | timeout
  deriving Repr, DecidableEq

/-- Modelled from the spec: the Pattern Advisor (§4.4), whose source is not
in the snapshot.  `critical → circuit_breaker`, `degraded → retry`,
`slow → timeout`, `healthy → no recommendation`; pure and stateless. -/
def advise (status : HealthState) : Option Pattern :=
  match status with
  | .critical => some .circuit_breaker
  | .degraded => some .retry
  | .slow => some .timeout
  | .healthy => none

/-- Agent event kinds (spec §3 AgentEvent). -/
inductive EventKind where
  | pattern_injected
  | pattern_removed
  | service_critical
  | service_healthy
  | scan_complete
  deriving Repr, DecidableEq

/-- An entry of the append-only event log (spec §3 AgentEvent): `event`,
`service` (absent for scan_complete), `timestamp`, and structured details
(`pattern`, `reason`). -/
structure AgentEvent where
  event : EventKind
  service : Option String
  timestamp : ℚ
  pattern : Option Pattern
  reason : Option String
  deriving Repr, DecidableEq

/-- Per-service activation record (spec §3 PatternState): `active_pattern`
is the `Option` of this entry in the registry map. -/
structure ActivePattern where
  pattern : Pattern
  activated_at : ℚ
  activation_reason : String
  deriving Repr, DecidableEq

/-- Pattern Registry state: the per-service `active_pattern` map together
with the process-wide event log it appends to (spec §4.5, §3). -/
structure RegistryState where
  patterns : String → Option ActivePattern
  log : List AgentEvent

/-- Registry at process start: no active patterns, empty log. -/
def initialRegistry : RegistryState :=
  { patterns := fun _ => none, log := [] }

/-- The `pattern_injected` event appended on activation (spec §4.5). -/
def injectedEvent (svc : String) (p : Pattern) (reason : String) (now : ℚ) : AgentEvent :=
  { event := .pattern_injected, service := some svc, timestamp := now,
    pattern := some p, reason := some reason }

/-- The `pattern_removed` event appended on removal (spec §4.5). -/
def removedEvent (svc : String) (p : Pattern) (reason : String) (now : ℚ) : AgentEvent :=
  { event := .pattern_removed, service := some svc, timestamp := now,
    pattern := some p, reason := some reason }

/-- Modelled from the spec: `activate(service, pattern, reason)` of the
Pattern Registry (§4.5), whose source is not in the snapshot.  Idempotent if
the same pattern is already active (no duplicate event); otherwise
deactivates any different active pattern first (emitting `pattern_removed`),
then activates the new one (emitting `pattern_injected`). -/
def activate (svc : String) (p : Pattern) (reason : String) (now : ℚ)
    (st : RegistryState) : RegistryState :=
  match st.patterns svc with
  | some a =>
    if a.pattern = p then st
    else
      { patterns := fun s => if s = svc then some ⟨p, now, reason⟩ else st.patterns s,
        log := st.log ++ [removedEvent svc a.pattern reason now, injectedEvent svc p reason now] }
  | none =>
      { patterns := fun s => if s = svc then some ⟨p, now, reason⟩ else st.patterns s,
        log := st.log ++ [injectedEvent svc p reason now] }

/-- Modelled from the spec: `deactivate(service, reason)` of the Pattern
Registry (§4.5), whose source is not in the snapshot.  Removes the active
pattern if present, emitting `pattern_removed`; no-op (no event) if none
active. -/
def deactivate (svc : String) (reason : String) (now : ℚ)
    (st : RegistryState) : RegistryState :=
  match st.patterns svc with
  | some a =>
      { patterns := fun s => if s = svc then none else st.patterns s,
        log := st.log ++ [removedEvent svc a.pattern reason now] }
  | none => st

/-- One registry mutation, for reasoning about arbitrary call sequences. -/
inductive RegOp where
  | act (svc : String) (p : Pattern) (reason : String) (now : ℚ)
  | deact (svc : String) (reason : String) (now : ℚ)

/-- Apply one registry operation. -/
def applyOp (st : RegistryState) (op : RegOp) : RegistryState :=
  match op with
  | .act svc p r now => activate svc p r now st
  | .deact svc r now => deactivate svc r now st

/-- Run a finite sequence of registry operations. -/
def runOps (ops : List RegOp) (st : RegistryState) : RegistryState :=
  ops.foldl applyOp st

/-- Replay one logged event against the set of patterns currently active for
`svc`: an injection adds the pattern, a removal erases it; other events do
not touch activation state. -/
def replayStep (svc : String) (acc : List Pattern) (e : AgentEvent) : List Pattern :=
  if e.service = some svc then
    match e.event, e.pattern with
    | .pattern_injected, some p => acc ++ [p]
    | .pattern_removed, some p => acc.erase p
    | _, _ => acc
  else acc

/-- The patterns active for `svc` according to the event log alone:
replay every injection/removal in order. -/
def activeFromLog (log : List AgentEvent) (svc : String) : List Pattern :=
  log.foldl (replayStep svc) []

/-- Number of `pattern_injected` events for `svc` in a log. -/
def injectedCount (log : List AgentEvent) (svc : String) : Nat :=
  (log.filter fun e => decide (e.event = .pattern_injected ∧ e.service = some svc)).length

/-- Modelled from the spec: the `/api/agent/events?limit=N` endpoint (§6),
whose source is not in the snapshot.  The log is append-only and
oldest-first, so the most recent N records, oldest-first, form the suffix of
length `min N log.length`. -/
def eventsEndpoint (log : List AgentEvent) (limit : Nat) : List AgentEvent :=
  log.drop (log.length - limit)

/-- The scenario of spec §8: ten calls for svc-a inside a 60 s window, six
with status 200 and four with status 500, all of duration 0.1 s. -/
def scenarioRecords : List CallRecord :=
  [⟨"svc-a", 95, 1/10, 200, none⟩, ⟨"svc-a", 95, 1/10, 200, none⟩,
   ⟨"svc-a", 96, 1/10, 200, none⟩, ⟨"svc-a", 96, 1/10, 200, none⟩,
   ⟨"svc-a", 97, 1/10, 200, none⟩, ⟨"svc-a", 97, 1/10, 200, none⟩,
   ⟨"svc-a", 98, 1/10, 500, some ("HTTP 500")⟩,
   ⟨"svc-a", 98, 1/10, 500, some ("HTTP 500")⟩,
   ⟨"svc-a", 99, 1/10, 500, some ("HTTP 500")⟩,
   ⟨"svc-a", 99, 1/10, 500, some ("HTTP 500")⟩]

/-- Consistency between the registry's map and its event log: for every
service, replaying the log yields exactly the currently active pattern. -/
def logMatches (st : RegistryState) : Prop :=
  ∀ svc, activeFromLog st.log svc = ((st.patterns svc).map ActivePattern.pattern).toList

end AutoHeal

namespace Frontend

open AutoHeal

/-- Per-call status-badge class of the first monitor-page variant
(`loadServiceDetail`, metrics table row):
`m.status >= 400 || m.status === 0 ? 'status-critical' : 'status-healthy'`. -/
def statusBadgeClass (status : Nat) : String :=
  if decide (status ≥ 400) || status == 0 then "status-critical" else "status-healthy"

/-- Per-call success test of the second monitor-page variant (`loadDetail`,
calls table): `const ok = m.status >= 200 && m.status < 400`. -/
def loadDetailOk (status : Nat) : Bool :=
  decide (status ≥ 200) && decide (status < 400)

/-- Per-call cell class of `loadDetail`: `ok ? 'status-ok' : 'status-err'`. -/
def loadDetailStatusClass (status : Nat) : String :=
  if loadDetailOk status then "status-ok" else "status-err"

/-- Page-level state of the first monitor-page variant: the globals
`currentService` and `currentWindow`. -/
structure MonitorPageState where
  currentService : String
  currentWindow : Int

/-- Request URL built by the first variant's `loadServiceDetail`:
the template string resolves to `/api/service/` followed by
`currentService`; `currentWindow` does not appear. -/
def loadServiceDetailUrl (st : MonitorPageState) : String :=
  "/api/service/" ++ st.currentService

/-- Upper-case hexadecimal digit, for percent-encoding. -/
def uriHexDigit (n : Nat) : Char :=
  if n < 10 then Char.ofNat (48 + n) else Char.ofNat (55 + n)

/-- Characters `encodeURIComponent` leaves unescaped:
ASCII letters, digits, and `- _ . ! ~ *` the apostrophe `( )`. -/
def isUnescapedURIChar (c : Char) : Bool :=
  c.isAlpha || c.isDigit ||
    c ∈ ['-', '_', '.', '!', '~', '*', Char.ofNat 39, '(', ')']

/-- JavaScript `encodeURIComponent`: unescaped characters pass through,
every other character is percent-encoded byte-wise over its UTF-8 form. -/
def encodeURIComponent (s : String) : String :=
  String.join <| s.toList.map fun c =>
    if isUnescapedURIChar c then String.singleton c
    else String.join <| (String.singleton c).toUTF8.toList.map fun b =>
      String.mk ['%', uriHexDigit (b.toNat / 16), uriHexDigit (b.toNat % 16)]

/-- Request URL built by the second variant's `loadDetail`:
  fetch(`/api/service/$\x7bencodeURIComponent(svc)\x7d?window=$\x7bwindow\x7d`),
where `window` is the time-range selector's string value. -/
def loadDetailUrl (svc window : String) : String :=
  "/api/service/" ++ encodeURIComponent svc ++ "?window=" ++ window

/-- Health percentage of the dashboard service card (`updateDashboard` in
dashboard.js and in the second dashboard variant):
`const healthPct = Math.max(0, 100 - parseFloat(s.failure_rate))`. -/
def healthPct (failure_rate : ℚ) : ℚ :=
  max 0 (100 - failure_rate)

end Frontend

namespace AutoHeal

open Frontend

/-- C1 (counterexample): status 100 lies in 1..399 and is not a failure for
the aggregator, yet the second monitor variant's `loadDetail` renders it
with the error class, so not every per-call classification in the program
treats statuses 1..399 as successes. -/
theorem claim_C1_counterexample :
    (1 ≤ 100 ∧ 100 ≤ 399 ∧ isFailure 100 = false) ∧
    loadDetailOk 100 = false ∧ loadDetailStatusClass 100 = "status-err" := by
  decide

/-- C1 (amended): the aggregator counts a call as a failure iff its status
is 0 or at least 400, and the first monitor variant's per-call badge agrees
with that test exactly; the second variant's `loadDetail`, however, treats a
call as a success iff its status lies in 200..399, so statuses 1..199 are
rendered as failures there. -/
theorem claim_C1_amended (s : Nat) :
    (isFailure s = true ↔ (s = 0 ∨ s ≥ 400)) ∧
    (statusBadgeClass s = "status-critical" ↔ isFailure s = true) ∧
    (loadDetailOk s = true ↔ (200 ≤ s ∧ s < 400)) := by
  have hb : (decide (s ≥ 400) || s == 0) = isFailure s := by
    rw [isFailure, Bool.or_comm]
  refine ⟨?_, ?_, ?_⟩
  · simp only [isFailure, Bool.or_eq_true, beq_iff_eq, decide_eq_true_eq]
  · rw [statusBadgeClass, hb]
    cases hf : isFailure s <;> simp
  · simp only [loadDetailOk, Bool.and_eq_true, decide_eq_true_eq]

/-- C2: with thresholds ordered degraded ≤ critical, the classifier returns
critical when `failure_rate ≥ critical_threshold`; degraded when
`degraded_threshold ≤ failure_rate < critical_threshold`; slow when
`failure_rate < degraded_threshold` and `avg_latency ≥ slow threshold`;
healthy otherwise — the conclusions for critical and degraded hold for every
latency, so failure rate dominates latency — and a failure rate exactly at
the degraded threshold already classifies as degraded, not healthy. -/
theorem claim_C2_classifier (t : Thresholds) (fr lat : ℚ)
    (hord : t.degraded_threshold ≤ t.critical_threshold) :
    (fr ≥ t.critical_threshold → classify t fr lat = .critical) ∧
    (t.degraded_threshold ≤ fr → fr < t.critical_threshold →
      classify t fr lat = .degraded) ∧
    (fr < t.degraded_threshold → lat ≥ t.slow_latency_threshold →
      classify t fr lat = .slow) ∧
    (fr < t.degraded_threshold → lat < t.slow_latency_threshold →
      classify t fr lat = .healthy) ∧
    (t.degraded_threshold < t.critical_threshold →
      classify t t.degraded_threshold lat = .degraded) := by
  refine ⟨fun h => ?_, fun h1 h2 => ?_, fun h1 h2 => ?_, fun h1 h2 => ?_,
    fun h => ?_⟩ <;> rw [classify]
  · rw [if_pos h]
  · rw [if_neg (not_le.mpr h2), if_pos h1]
  · rw [if_neg (not_le.mpr (lt_of_lt_of_le h1 hord)), if_neg (not_le.mpr h1),
      if_pos h2]
  · rw [if_neg (not_le.mpr (lt_of_lt_of_le h1 hord)), if_neg (not_le.mpr h1),
      if_neg (not_le.mpr h2)]
  · rw [if_neg (not_le.mpr h), if_pos le_rfl]

/-- C2 (witness): at the default thresholds, a failure rate of exactly 20%
classifies as degraded and one of 60% as critical. -/
theorem claim_C2_classifier_witness :
    classify defaultThresholds 20 0 = .degraded ∧
    classify defaultThresholds 60 0 = .critical := by
  constructor
  · exact (claim_C2_classifier defaultThresholds 20 0 (by decide)).2.2.2.2
      (by decide)
  · exact (claim_C2_classifier defaultThresholds 60 0 (by decide)).1 (by decide)

end AutoHeal

namespace AutoHeal

/-- C3: when no record of the service falls inside the requested window,
summarize returns total_calls 0, failure_rate 0, avg_latency 0 and status
healthy, and the advisor makes no recommendation (summarize is total, so the
empty case returns a value rather than raising). -/
theorem claim_C3_empty_window (t : Thresholds) (history : List CallRecord)
    (svc : String) (now w : ℚ)
    (h : ∀ r ∈ history, r.service = svc → inWindow now w r = false) :
    summarize t history svc now w =
      { service := svc, window_seconds := w, total_calls := 0,
        failure_rate := 0, avg_latency := 0, status := .healthy } ∧
    advise (summarize t history svc now w).status = none := by
  have hfilter :
      history.filter (fun r => r.service == svc && inWindow now w r) = [] := by
    rw [List.filter_eq_nil_iff]
    intro r hr
    simp only [Bool.and_eq_true, beq_iff_eq, not_and]
    intro hsvc
    rw [h r hr hsvc]
    simp
  have hsum : summarize t history svc now w =
      { service := svc, window_seconds := w, total_calls := 0,
        failure_rate := 0, avg_latency := 0, status := .healthy } := by
    simp [summarize, hfilter]
  exact ⟨hsum, by rw [hsum]; rfl⟩

/-- C3 (witness): a history whose only record lies outside the window gives
the empty summary and no recommendation. -/
theorem claim_C3_empty_window_witness :
    summarize defaultThresholds [⟨"svc-a", 0, 1, 500, none⟩] "svc-a" 1000 60 =
      { service := "svc-a", window_seconds := 60, total_calls := 0,
        failure_rate := 0, avg_latency := 0, status := .healthy } ∧
    advise (summarize defaultThresholds [⟨"svc-a", 0, 1, 500, none⟩]
      "svc-a" 1000 60).status = none := by
  refine claim_C3_empty_window _ _ _ _ _ ?_
  intro r hr _
  simp only [List.mem_singleton] at hr
  subst hr
  norm_num [inWindow]

/-- C7: the advisor maps critical to circuit_breaker, degraded to retry,
slow to timeout and healthy to no recommendation; and the ten-call scenario
(six status-200 and four status-500 calls of duration 0.1 s in a 60 s
window) yields failure_rate 40, classification degraded and recommendation
retry at the default 20% threshold. -/
theorem claim_C7_advisor :
    advise .critical = some .circuit_breaker ∧
    advise .degraded = some .retry ∧
    advise .slow = some .timeout ∧
    advise .healthy = none ∧
    (summarize defaultThresholds scenarioRecords ("svc-a") 100 60).total_calls = 10 ∧
    (summarize defaultThresholds scenarioRecords ("svc-a") 100 60).failure_rate = 40 ∧
    (summarize defaultThresholds scenarioRecords ("svc-a") 100 60).status = .degraded ∧
    advise (summarize defaultThresholds scenarioRecords ("svc-a") 100 60).status =
      some .retry := by
  refine ⟨rfl, rfl, rfl, rfl, ?_, ?_, ?_, ?_⟩ <;>
    norm_num [summarize, scenarioRecords, inWindow, isFailure, classify,
      defaultThresholds, advise]

/-- C8: the events endpoint returns min(N, length) records forming a suffix
of the oldest-first log — the most recent records, still oldest-first — and
reversing the returned list yields exactly the N newest records
newest-first. -/
theorem claim_C8_events_limit (log : List AgentEvent) (n : Nat) :
    (eventsEndpoint log n).length = min n log.length ∧
    eventsEndpoint log n <:+ log ∧
    (eventsEndpoint log n).reverse = log.reverse.take n := by
  refine ⟨?_, List.drop_suffix _ _, ?_⟩
  · rw [eventsEndpoint, List.length_drop]
    omega
  · rw [eventsEndpoint, List.reverse_drop]
    rcases le_total n log.length with h | h
    · congr 1
      omega
    · have h1 : log.length - (log.length - n) = log.length := by omega
      rw [h1, List.take_of_length_le (by rw [List.length_reverse]),
        List.take_of_length_le (by rw [List.length_reverse]; exact h)]

end AutoHeal

namespace Frontend

open AutoHeal

/-- C9: the first monitor variant's `loadServiceDetail` builds a request URL
that is independent of `currentWindow` — two page states differing only in
the time-range selection issue identical requests — while the second
variant's `loadDetail` does depend on the window value. -/
theorem claim_C9_window_noninterference :
    (∀ (svc : String) (w₁ w₂ : Int),
      loadServiceDetailUrl ⟨svc, w₁⟩ = loadServiceDetailUrl ⟨svc, w₂⟩) ∧
    loadDetailUrl ("svc-a") ("300") ≠ loadDetailUrl ("svc-a") ("60") := by
  refine ⟨fun svc w₁ w₂ => rfl, ?_⟩
  decide

/-- C10: the dashboard's health percentage is never negative, equals
`100 - failure_rate` whenever the failure rate is at most 100, and stays in
[0, 100] for failure rates in [0, 100]. -/
theorem claim_C10_healthPct (fr : ℚ) :
    0 ≤ healthPct fr ∧
    (fr ≤ 100 → healthPct fr = 100 - fr) ∧
    (0 ≤ fr → fr ≤ 100 → 0 ≤ healthPct fr ∧ healthPct fr ≤ 100) := by
  refine ⟨le_max_left _ _, fun h => max_eq_right (by linarith), fun h0 h1 => ?_⟩
  refine ⟨le_max_left _ _, ?_⟩
  have hfr : healthPct fr = 100 - fr := max_eq_right (by linarith)
  rw [hfr]
  linarith

/-- C10 (witness): at a failure rate of 30% the health percentage is 70 and
lies in [0, 100]. -/
theorem claim_C10_healthPct_witness :
    healthPct 30 = 100 - 30 ∧ 0 ≤ healthPct 30 ∧ healthPct 30 ≤ 100 :=
  ⟨(claim_C10_healthPct 30).2.1 (by decide),
   (claim_C10_healthPct 30).1,
   ((claim_C10_healthPct 30).2.2 (by decide) (by decide)).2⟩

end Frontend

namespace AutoHeal

/-- Replaying an extended log continues the fold from the shorter log. -/
theorem activeFromLog_append (l l' : List AgentEvent) (svc : String) :
    activeFromLog (l ++ l') svc = l'.foldl (replayStep svc) (activeFromLog l svc) := by
  rw [activeFromLog, activeFromLog, List.foldl_append]

/-- `activate` preserves consistency between registry map and event log. -/
theorem logMatches_activate (svc : String) (p : Pattern) (r : String) (now : ℚ)
    (st : RegistryState) (h : logMatches st) : logMatches (activate svc p r now st) := by
  intro s
  unfold activate
  split
  next a hp =>
    split
    next hap => exact h s
    next hap =>
      simp only [activeFromLog_append]
      by_cases hsv : s = svc
      · subst hsv
        rw [h s, hp]
        simp [replayStep, removedEvent, injectedEvent, List.erase_cons_head]
      · rw [h s]
        simp [replayStep, removedEvent, injectedEvent, hsv, Ne.symm hsv]
  next hp =>
    simp only [activeFromLog_append]
    by_cases hsv : s = svc
    · subst hsv
      rw [h s, hp]
      simp [replayStep, injectedEvent]
    · rw [h s]
      simp [replayStep, injectedEvent, hsv, Ne.symm hsv]

/-- `deactivate` preserves consistency between registry map and event log. -/
theorem logMatches_deactivate (svc : String) (r : String) (now : ℚ)
    (st : RegistryState) (h : logMatches st) : logMatches (deactivate svc r now st) := by
  intro s
  unfold deactivate
  split
  next a hp =>
    simp only [activeFromLog_append]
    by_cases hsv : s = svc
    · subst hsv
      rw [h s, hp]
      simp [replayStep, removedEvent, List.erase_cons_head]
    · rw [h s]
      simp [replayStep, removedEvent, hsv, Ne.symm hsv]
  next hp => exact h s

/-- Every registry operation preserves map/log consistency. -/
theorem logMatches_applyOp (st : RegistryState) (op : RegOp) (h : logMatches st) :
    logMatches (applyOp st op) := by
  cases op with
  | act svc p r now => exact logMatches_activate svc p r now st h
  | deact svc r now => exact logMatches_deactivate svc r now st h

/-- Any operation sequence preserves map/log consistency. -/
theorem logMatches_runOps (ops : List RegOp) :
    ∀ st : RegistryState, logMatches st → logMatches (runOps ops st) := by
  induction ops with
  | nil => intro st h; exact h
  | cons op ops ih =>
    intro st h
    exact ih _ (logMatches_applyOp st op h)

/-- C4: after any finite sequence of activate/deactivate calls starting from
the initial registry, the patterns active for each service according to the
event log coincide with the registry's single optional active pattern, so at
most one pattern is active per service at every inspection point (every
prefix of a call sequence is itself such a sequence). -/
theorem claim_C4_exclusivity (ops : List RegOp) (svc : String) :
    activeFromLog (runOps ops initialRegistry).log svc =
      (((runOps ops initialRegistry).patterns svc).map ActivePattern.pattern).toList ∧
    (activeFromLog (runOps ops initialRegistry).log svc).length ≤ 1 := by
  have hinv : logMatches (runOps ops initialRegistry) :=
    logMatches_runOps ops initialRegistry (fun _ => rfl)
  refine ⟨hinv svc, ?_⟩
  rw [hinv svc]
  cases (runOps ops initialRegistry).patterns svc <;> simp

/-- After `activate`, the service's active pattern is the requested one. -/
theorem activate_patterns_self (svc : String) (p : Pattern) (r : String) (now : ℚ)
    (st : RegistryState) :
    ((activate svc p r now st).patterns svc).map ActivePattern.pattern = some p := by
  unfold activate
  split
  next a hp =>
    split
    next hap => rw [hp]; simp [hap]
    next hap => simp
  next hp => simp

/-- `activate` is the identity when the requested pattern is already the
active one (no state change, no event). -/
theorem activate_of_pattern_eq (svc : String) (p : Pattern) (r : String) (now : ℚ)
    (st : RegistryState)
    (h : (st.patterns svc).map ActivePattern.pattern = some p) :
    activate svc p r now st = st := by
  unfold activate
  split
  next a hp =>
    rw [hp] at h
    simp only [Option.map_some', Option.some_inj] at h
    rw [if_pos h]
  next hp => rw [hp] at h; exact Option.noConfusion h

/-- Counting injected events distributes over log concatenation. -/
theorem injectedCount_append (l l' : List AgentEvent) (svc : String) :
    injectedCount (l ++ l') svc = injectedCount l svc + injectedCount l' svc := by
  simp [injectedCount, List.filter_append]

/-- C5: activating the same pattern twice in a row leaves the state of the
second call unchanged; when the pattern was not already active, the two
calls together append exactly one pattern_injected event; and when a
different pattern is active, the activating call appends pattern_removed
for the old pattern followed by pattern_injected for the new one. -/
theorem claim_C5_idempotent (st : RegistryState) (svc : String) (p : Pattern)
    (r₁ r₂ : String) (n₁ n₂ : ℚ) :
    (activate svc p r₂ n₂ (activate svc p r₁ n₁ st) = activate svc p r₁ n₁ st) ∧
    ((st.patterns svc).map ActivePattern.pattern ≠ some p →
      injectedCount (activate svc p r₂ n₂ (activate svc p r₁ n₁ st)).log svc =
        injectedCount st.log svc + 1) ∧
    (∀ a, st.patterns svc = some a → a.pattern ≠ p →
      (activate svc p r₁ n₁ st).log =
        st.log ++ [removedEvent svc a.pattern r₁ n₁, injectedEvent svc p r₁ n₁]) := by
  have hsecond : activate svc p r₂ n₂ (activate svc p r₁ n₁ st) = activate svc p r₁ n₁ st :=
    activate_of_pattern_eq _ _ _ _ _ (activate_patterns_self svc p r₁ n₁ st)
  refine ⟨hsecond, fun hne => ?_, fun a hp hap => ?_⟩
  · rw [hsecond]
    unfold activate
    split
    next a hp =>
      split
      next hap =>
        exact absurd (by rw [hp]; simp [hap] :
          Option.map ActivePattern.pattern (st.patterns svc) = some p) hne
      next hap =>
        simp only [injectedCount_append]
        simp [injectedCount, removedEvent, injectedEvent]
    next hp =>
      simp only [injectedCount_append]
      simp [injectedCount, injectedEvent]
  · unfold activate
    rw [hp]
    simp only [if_neg hap]

/-- C5 (witness): on a fresh registry, activating circuit_breaker twice for
svc-a leaves the second call a no-op and appends exactly one
pattern_injected event in total. -/
theorem claim_C5_idempotent_witness :
    (activate ("svc-a") .circuit_breaker ("r2") 1
        (activate ("svc-a") .circuit_breaker ("r1") 0 initialRegistry) =
      activate ("svc-a") .circuit_breaker ("r1") 0 initialRegistry) ∧
    injectedCount (activate ("svc-a") .circuit_breaker ("r2") 1
        (activate ("svc-a") .circuit_breaker ("r1") 0 initialRegistry)).log ("svc-a") =
      injectedCount initialRegistry.log ("svc-a") + 1 :=
  ⟨(claim_C5_idempotent initialRegistry ("svc-a") .circuit_breaker ("r1") ("r2") 0 1).1,
   (claim_C5_idempotent initialRegistry ("svc-a") .circuit_breaker ("r1") ("r2") 0 1).2.1
     (by decide)⟩

/-- C6: appending one failing in-window call for the service never decreases
the failure rate reported by summarize over a fixed window, all other
records held equal. -/
theorem claim_C6_failure_rate_monotone (t : Thresholds) (history : List CallRecord)
    (svc : String) (now w : ℚ) (r : CallRecord)
    (hs : r.service = svc) (hw : inWindow now w r = true)
    (hf : isFailure r.status = true) :
    (summarize t history svc now w).failure_rate ≤
    (summarize t (history ++ [r]) svc now w).failure_rate := by
  have hfil : (history ++ [r]).filter (fun x => x.service == svc && inWindow now w x)
      = history.filter (fun x => x.service == svc && inWindow now w x) ++ [r] := by
    rw [List.filter_append]
    simp [List.filter, hs, hw]
  simp only [summarize, hfil]
  set l := history.filter (fun x => x.service == svc && inWindow now w x) with hl
  have hff : (l ++ [r]).filter (fun x => isFailure x.status)
      = l.filter (fun x => isFailure x.status) ++ [r] := by
    rw [List.filter_append]
    simp [List.filter, hf]
  set f := (l.filter (fun x => isFailure x.status)).length with hfdef
  have hfn : f ≤ l.length := List.length_filter_le _ _
  by_cases hn : l.length = 0
  · simp [hn, hff]
    positivity
  · simp only [List.length_append, List.length_singleton, hff, hn, if_neg,
      Nat.add_eq_zero, and_false, if_false]
    simp only [false_and, if_false]
    have hn0 : (0:ℚ) < (l.length : ℚ) := by exact_mod_cast Nat.pos_of_ne_zero hn
    have hn1 : (0:ℚ) < (l.length : ℚ) + 1 := by linarith
    have hfq : (f:ℚ) ≤ (l.length : ℚ) := by exact_mod_cast hfn
    have key : (f:ℚ) / (l.length:ℚ) ≤ ((f:ℚ)+1) / ((l.length:ℚ)+1) := by
      rw [div_le_div_iff₀ hn0 hn1]
      nlinarith
    push_cast
    rw [← hfdef]
    exact mul_le_mul_of_nonneg_right key (by norm_num)

/-- C6 (witness): adding a failing status-500 in-window call to an empty
history does not decrease the reported failure rate. -/
theorem claim_C6_failure_rate_monotone_witness :
    (summarize defaultThresholds [] "svc-a" 0 60).failure_rate ≤
    (summarize defaultThresholds ([] ++ [⟨"svc-a", 0, 0, 500, none⟩])
      "svc-a" 0 60).failure_rate :=
  claim_C6_failure_rate_monotone defaultThresholds [] "svc-a" 0 60
    ⟨"svc-a", 0, 0, 500, none⟩ rfl (by simp [inWindow]) (by decide)

end AutoHeal
